import Mathlib

/-!
# Verification of the Gorilla artillery-duel simulation core

Shallow embedding of the simulation core of `src/app.py` (a pygame
two-player artillery game): the destructible terrain (`Skyline`), the
projectile integrator (`Projectile.update`), the per-tick collision
resolver and the turn/round state machine (`GorillaGame.update`,
`GorillaGame.handle_fire`, `GorillaGame.resolve_hit`,
`GorillaGame.start_round`, `GorillaGame.switch_turn`,
`GorillaGame.save_score`).

Modelling conventions:
* Python floats are modelled by `ℚ` (exact field arithmetic); the two
  trigonometric calls of the launch-vector computation are modelled over
  `ℝ` (`launchVel`), and at the game-state level the velocity constructor
  is an abstract parameter `mkVel`, since no state-machine claim depends
  on its value.
* `pygame.Surface` alpha-channel occupancy is modelled as an explicit
  alpha function `Int → Int → ℕ`; `pygame.draw.circle` with a fully
  transparent color, clipped to the surface, is modelled as setting alpha
  to 0 on the in-surface part of the Euclidean disk.
* Rendering, fonts, explosions' particle animation, the projectile's
  decorative rotation and the UI widgets are presentation-only and are
  not part of the embedding; the status label's text is kept (it is the
  only user-visible validation-failure channel of `handle_fire`).
* Per-round randomness (skyline generation, gorilla placement, wind
  sampling) is external unseeded randomness in the source; it enters the
  embedding as an explicit `RoundInit` argument of `startRound`.
* The score file I/O of `save_score` is modelled by `saveScoreStore` over
  an explicit store state; at the game-state level only the number of
  performed appends is tracked (`score_appends`).
-/

namespace Gorilla

/-- `SCREEN_WIDTH = 1200` from `src/app.py`. -/
def SCREEN_WIDTH : Int := 1200

/-- `SCREEN_HEIGHT = 720` from `src/app.py`. -/
def SCREEN_HEIGHT : Int := 720

/-- `GRAVITY = 260.0` (px/s^2) from `src/app.py`. -/
def GRAVITY : ℚ := 260

/-- `DRAG_COEFF = 0.55` from `src/app.py`. -/
def DRAG_COEFF : ℚ := 11 / 20

/-- `EXPLOSION_RADIUS = 38` from `src/app.py`. -/
def EXPLOSION_RADIUS : Int := 38

/-- `MAX_WIND = 140.0` from `src/app.py`. -/
def MAX_WIND : ℚ := 140

/-- `pygame.Rect`: integer position and size. -/
structure Rect where
  x : Int
  y : Int
  w : Int
  h : Int
deriving DecidableEq

/-- `pygame.Rect.collidepoint`: a point on the right or bottom edge is
not inside the rectangle. -/
def Rect.collidepoint (r : Rect) (px py : Int) : Bool :=
  decide (r.x ≤ px ∧ px < r.x + r.w ∧ r.y ≤ py ∧ py < r.y + r.h)

/-- `pygame.Rect.centerx = x + w // 2` (widths are nonnegative in all
rects the game builds, so the division convention is immaterial). -/
def Rect.centerx (r : Rect) : Int := r.x + r.w / 2

/-- A `Gorilla` (combatant): bounding box and facing direction
(+1 right, -1 left). Color and drawing are presentation only. -/
structure GorillaM where
  rect : Rect
  direction : Int
deriving DecidableEq

/-- `Gorilla.throw_position`:
`(centerx + direction * (width // 2 + 6), y + 12)` as a float vector. -/
def GorillaM.throwPosition (go : GorillaM) : ℚ × ℚ :=
  (((go.rect.centerx + go.direction * (go.rect.w / 2 + 6) : Int) : ℚ),
   ((go.rect.y + 12 : Int) : ℚ))

/-- `Skyline`: the destructible terrain. The pygame per-pixel alpha
surface is the occupancy authority; `alpha x y` is the alpha byte at
pixel `(x, y)` (the generated city has alpha 255/230 inside buildings
and 0 in the sky). The `buildings` list is used only for placement,
which enters the embedding through `RoundInit`. -/
structure Skyline where
  width : Int
  height : Int
  alpha : Int → Int → ℕ

/-- `Skyline.collides(point)`: `False` outside `[0,W)×[0,H)`, else the
alpha test `surface.get_at(point).a > 10`. Total, hence it never
raises (the out-of-bounds guard precedes the pixel access). -/
def Skyline.collides (s : Skyline) (pt : Int × Int) : Bool :=
  if 0 ≤ pt.1 ∧ pt.1 < s.width ∧ 0 ≤ pt.2 ∧ pt.2 < s.height then
    decide (10 < s.alpha pt.1 pt.2)
  else
    false

/-- `Skyline.carve_explosion(center, radius)`:
`pygame.draw.circle(surface, (0,0,0,0), center, radius)` replaces the
pixels of the radius-`radius` Euclidean disk around `center`, clipped to
the surface, with a fully transparent color. -/
def Skyline.carve_explosion (s : Skyline) (center : Int × Int) (radius : Int) : Skyline :=
  { s with
    alpha := fun px py =>
      if 0 ≤ px ∧ px < s.width ∧ 0 ≤ py ∧ py < s.height ∧
          (px - center.1) ^ 2 + (py - center.2) ^ 2 ≤ radius ^ 2 then
        0
      else
        s.alpha px py }

/-- `Projectile`: position, velocity, the wind sampled at round start,
and the presentation trail (bounded at 120 points). The decorative
`rotation` fields are presentation-only and omitted. -/
structure Proj where
  pos : ℚ × ℚ
  vel : ℚ × ℚ
  wind_speed : ℚ
  trail : List (ℚ × ℚ)
deriving DecidableEq

/-- Trail maintenance of `Projectile.update`: append the new position,
then `pop(0)` if the length exceeds 120. -/
def pushTrail (trail : List (ℚ × ℚ)) (p : ℚ × ℚ) : List (ℚ × ℚ) :=
  let t := trail ++ [p]
  if 120 < t.length then t.drop 1 else t

/-- `Projectile.update(dt)`: semi-implicit Euler under gravity, drag
relative to the wind, velocity updated before position. -/
def Proj.update (p : Proj) (dt : ℚ) : Proj :=
  let rel_vx := p.vel.1 - p.wind_speed
  let ax := -DRAG_COEFF * rel_vx
  let ay := GRAVITY - DRAG_COEFF * p.vel.2
  let vx := p.vel.1 + ax * dt
  let vy := p.vel.2 + ay * dt
  let pos := (p.pos.1 + vx * dt, p.pos.2 + vy * dt)
  { p with vel := (vx, vy), pos := pos, trail := pushTrail p.trail pos }

/-- Python `int()` applied to a float: truncation toward zero, used on
the projectile position in `GorillaGame.update`. -/
def pyInt (q : ℚ) : Int := if q < 0 then -⌊-q⌋ else ⌊q⌋

/-- The launch-vector computation of the `Projectile` constructor over
`ℝ`: `radians = math.radians(angle_deg)`;
`vel = (cos(radians) * speed, -sin(radians) * speed)`. -/
noncomputable def launchVel (speed angleDeg : ℝ) : ℝ × ℝ :=
  (Real.cos (angleDeg * (Real.pi / 180)) * speed,
   -(Real.sin (angleDeg * (Real.pi / 180)) * speed))

/-- The whole mutable game state of `GorillaGame` that the simulation
reads or writes. `score_appends` counts `save_score` calls (each call
appends exactly one entry to the score store); `names` are the two
UI name fields. -/
structure GameState where
  skyline : Skyline
  projectile : Option Proj
  current_player : Nat
  wind_speed : ℚ
  round_wins : Nat × Nat
  current_round : Nat
  match_over : Bool
  gorillas : GorillaM × GorillaM
  status_message : String
  score_appends : Nat
  names : String × String

/-- The two gorillas are stored as a pair (the source list always holds
exactly two); index 1 is the second, anything else the first. -/
def nthGorilla (gs : GorillaM × GorillaM) (i : Nat) : GorillaM :=
  if i = 1 then gs.2 else gs.1

/-- `round_wins[i]` for the pair representation. -/
def winsOf (w : Nat × Nat) (i : Nat) : Nat :=
  if i = 1 then w.2 else w.1

/-- `round_wins[i] += 1` for the pair representation. -/
def bumpWins (w : Nat × Nat) (i : Nat) : Nat × Nat :=
  if i = 1 then (w.1, w.2 + 1) else (w.1 + 1, w.2)

/-- `GorillaGame.player_name`: the stripped UI text, or the default
name when it strips to empty. -/
def playerName (g : GameState) (i : Nat) : String :=
  let n := (if i = 1 then g.names.2 else g.names.1).trim
  if n = "" then (if i = 0 then "Gorille A" else "Gorille B") else n

/-- `GorillaGame.update_status`: write the status label. -/
def updateStatus (g : GameState) (m : String) : GameState :=
  { g with status_message := m }

/-- `GorillaGame.switch_turn`: no-op when the match is over, otherwise
flip the turn owner and report whose turn it is. -/
def switchTurn (g : GameState) (message : String) : GameState :=
  if g.match_over then g
  else
    let g2 := { g with current_player := 1 - g.current_player }
    updateStatus g2 (message ++ "\nÀ " ++ playerName g2 g2.current_player ++ " de jouer.")

/-- The random data consumed by one `start_round` call: the regenerated
skyline, the re-placed gorillas and the freshly sampled wind. The
source draws these from an unseeded random generator. -/
structure RoundInit where
  skyline : Skyline
  gorillas : GorillaM × GorillaM
  wind : ℚ

/-- `GorillaGame.start_round`: regenerate terrain, re-place gorillas,
resample wind, clear the projectile (and effects), and set the starting
player by parity of the round number. -/
def startRound (g : GameState) (ri : RoundInit) : GameState :=
  let g2 := { g with
    skyline := ri.skyline
    gorillas := ri.gorillas
    wind_speed := ri.wind
    projectile := (none : Option Proj)
    current_player := if g.current_round % 2 = 1 then 0 else 1 }
  updateStatus g2
    ("Round " ++ toString g2.current_round ++ " - " ++ playerName g2 g2.current_player ++ " commence !")

/-- `GorillaGame.start_match`: reset the tallies, round number and
match-over flag, then start round 1. -/
def startMatch (g : GameState) (ri : RoundInit) : GameState :=
  startRound { g with round_wins := (0, 0), current_round := 1, match_over := false } ri

/-- `GorillaGame.resolve_hit(winner, loser)`: bump the winner's tally;
at 2 wins set match-over, drop the projectile and persist one score
entry, else advance the round number and start the next round. -/
def resolveHit (g : GameState) (winner loser : Nat) (ri : RoundInit) : GameState :=
  let g1 := { g with round_wins := bumpWins g.round_wins winner }
  let g2 := updateStatus g1 (playerName g1 winner ++ " touche " ++ playerName g1 loser ++ " !")
  if 2 ≤ winsOf g2.round_wins winner then
    let g3 := { g2 with
      match_over := true
      projectile := (none : Option Proj)
      score_appends := g2.score_appends + 1 }
    updateStatus g3 (playerName g3 winner ++ " remporte la partie !\nAppuyez sur R pour rejouer.")
  else
    startRound { g2 with current_round := g2.current_round + 1 } ri

/-- The per-tick resolution result of `GorillaGame.update` while a
projectile is live. -/
inductive Outcome where
  | cont
  | outOfBounds
  | terrainHit
  | gorillaHit (winner loser : Nat)
deriving DecidableEq

/-- First gorilla (in iteration order) whose box contains the point, as
in the `for idx, gorilla in enumerate(self.gorillas)` loop. -/
def hitIndex (gs : GorillaM × GorillaM) (px py : Int) : Option Nat :=
  if gs.1.rect.collidepoint px py then some 0
  else if gs.2.rect.collidepoint px py then some 1
  else none

/-- The gorilla-loop outcome of `GorillaGame.update`: on the first
containing box, the winner is the current player unless the hit box is
the current player's own. -/
def gorillaOutcome (gs : GorillaM × GorillaM) (cp : Nat) (px py : Int) : Outcome :=
  match hitIndex gs px py with
  | some idx => Outcome.gorillaHit (if idx ≠ cp then cp else 1 - cp) idx
  | none => Outcome.cont

/-- The branch structure of `GorillaGame.update` on the truncated
projectile position: out-of-bounds first; then, unless `py < 0`
(flying above the screen), the terrain test; then the gorilla loop. -/
def resolveOutcome (sky : Skyline) (gs : GorillaM × GorillaM) (cp : Nat) (px py : Int) :
    Outcome :=
  if px < 0 ∨ SCREEN_WIDTH ≤ px ∨ SCREEN_HEIGHT ≤ py then Outcome.outOfBounds
  else if py < 0 then gorillaOutcome gs cp px py
  else if sky.collides (px, py) then Outcome.terrainHit
  else gorillaOutcome gs cp px py

/-- "La banane est tombée..." -/
def msgFell : String := "La banane est tombée..."

/-- One tick of `GorillaGame.update` while a projectile may be live
(the explosion-list animation is presentation-only and omitted).
Returns the new state and the resolution outcome. -/
def gameUpdate (g : GameState) (dt : ℚ) (ri : RoundInit) : GameState × Outcome :=
  match g.projectile with
  | none => (g, Outcome.cont)
  | some p0 =>
    match resolveOutcome g.skyline g.gorillas g.current_player
        (pyInt (p0.update dt).pos.1) (pyInt (p0.update dt).pos.2) with
    | Outcome.outOfBounds =>
        (switchTurn { g with projectile := (none : Option Proj) } msgFell, Outcome.outOfBounds)
    | Outcome.terrainHit =>
        (switchTurn
          { g with
            skyline := g.skyline.carve_explosion
              (pyInt (p0.update dt).pos.1, pyInt (p0.update dt).pos.2) EXPLOSION_RADIUS
            projectile := (none : Option Proj) }
          (playerName g g.current_player ++ " a touché un immeuble !"),
         Outcome.terrainHit)
    | Outcome.gorillaHit w l =>
        (resolveHit { g with projectile := (none : Option Proj) } w l ri, Outcome.gorillaHit w l)
    | Outcome.cont =>
        ({ g with projectile := some (p0.update dt) }, Outcome.cont)

/-- "Angle ou vitesse invalide." (unparsable angle or speed). -/
def msgInvalid : String := "Angle ou vitesse invalide."

/-- "Entrez un angle entre 0 et 180° et une vitesse positive." -/
def msgRange : String := "Entrez un angle entre 0 et 180° et une vitesse positive."

/-- The angle actually launched: mirrored to `180 - angle` when player 1
(facing left) fires, as in `handle_fire`. -/
def effectiveAngle (cp : Nat) (angle : ℚ) : ℚ :=
  if cp = 1 then 180 - angle else angle

/-- `GorillaGame.handle_fire`. The UI text fields arrive pre-parsed as
`Option ℚ` (`none` models a `float()` `ValueError`); `mkVel` abstracts
the float trigonometry of the `Projectile` constructor (its idealized
real-valued model is `launchVel`). Silently returns when a projectile
is live or the match is over; surfaces a message on invalid input;
otherwise clamps the speed into `[60, 600]` and launches. -/
def handleFire (g : GameState) (angleIn speedIn : Option ℚ) (mkVel : ℚ → ℚ → ℚ × ℚ) :
    GameState :=
  if g.projectile.isSome || g.match_over then g
  else
    match angleIn, speedIn with
    | some angle, some speed =>
      if ¬(0 < angle ∧ angle < 180) ∨ speed ≤ 0 then updateStatus g msgRange
      else
        let speed2 := max 60 (min speed 600)
        let angle2 := effectiveAngle g.current_player angle
        let g2 := { g with
          projectile := some
            { pos := (nthGorilla g.gorillas g.current_player).throwPosition
              vel := mkVel speed2 angle2
              wind_speed := g.wind_speed
              trail := [] } }
        updateStatus g2 (playerName g2 g2.current_player ++ " a lancé une banane !")
    | _, _ => updateStatus g msgInvalid

/-- The simulation-relevant fields of the game state (everything except
the status label). -/
def simFields (g : GameState) :=
  (g.skyline, g.projectile, g.current_player, g.wind_speed, g.round_wins,
   g.current_round, g.match_over, g.gorillas, g.score_appends, g.names)

/-- One record of the persisted score array, as written by
`save_score`. -/
structure ScoreEntry where
  timestamp : String
  winner : String
  loser : String
  rounds : Nat × Nat
  wind : ℚ
deriving DecidableEq

/-- The state of the score file before `save_score` runs: absent,
present but unreadable (`read_text` raises `OSError`), or readable with
raw text content. -/
inductive StoreState where
  | missing
  | unreadable (raw : String)
  | readable (raw : String)
deriving DecidableEq

/-- What `json.loads` plus the list check yield on the raw text: a
decode failure (`json.JSONDecodeError`), a decoded non-list value, or a
decoded list of entries. -/
inductive DecodeResult where
  | jsonError
  | notArray
  | array (entries : List ScoreEntry)
deriving DecidableEq

/-- The file interaction of `GorillaGame.save_score`: a missing file is
skipped (`data = []`); reading an unreadable file raises `OSError`,
which the `except json.JSONDecodeError` clause does not catch; a decode
failure is recovered as `data = []`; a decoded non-list raises on
`data.append` (uncaught); otherwise the entry is appended and the whole
array rewritten. `Except.ok` carries the array that gets written. -/
def saveScoreStore (store : StoreState) (decode : String → DecodeResult)
    (entry : ScoreEntry) : Except Unit (List ScoreEntry) :=
  match store with
  | StoreState.missing => Except.ok ([] ++ [entry])
  | StoreState.unreadable _ => Except.error ()
  | StoreState.readable raw =>
    match decode raw with
    | DecodeResult.jsonError => Except.ok ([] ++ [entry])
    | DecodeResult.notArray => Except.error ()
    | DecodeResult.array l => Except.ok (l ++ [entry])

end Gorilla


namespace Gorilla

/-! ### Structural lemmas about the state-machine operations -/

theorem switchTurn_projectile (g : GameState) (m : String) :
    (switchTurn g m).projectile = g.projectile := by
  simp only [switchTurn, updateStatus]
  split <;> rfl

theorem switchTurn_skyline (g : GameState) (m : String) :
    (switchTurn g m).skyline = g.skyline := by
  simp only [switchTurn, updateStatus]
  split <;> rfl

theorem switchTurn_score_appends (g : GameState) (m : String) :
    (switchTurn g m).score_appends = g.score_appends := by
  simp only [switchTurn, updateStatus]
  split <;> rfl

theorem switchTurn_match_over (g : GameState) (m : String) :
    (switchTurn g m).match_over = g.match_over := by
  simp only [switchTurn, updateStatus]
  split <;> rfl

theorem switchTurn_player (g : GameState) (m : String) (h : g.match_over = false) :
    (switchTurn g m).current_player = 1 - g.current_player := by
  simp only [switchTurn, updateStatus]
  rw [if_neg (by simp [h])]

theorem startRound_player (g : GameState) (ri : RoundInit) :
    (startRound g ri).current_player = if g.current_round % 2 = 1 then 0 else 1 := rfl

theorem startRound_projectile (g : GameState) (ri : RoundInit) :
    (startRound g ri).projectile = none := rfl

theorem startRound_round (g : GameState) (ri : RoundInit) :
    (startRound g ri).current_round = g.current_round := rfl

theorem startRound_match_over (g : GameState) (ri : RoundInit) :
    (startRound g ri).match_over = g.match_over := rfl

theorem startRound_skyline (g : GameState) (ri : RoundInit) :
    (startRound g ri).skyline = ri.skyline := rfl

theorem startRound_gorillas (g : GameState) (ri : RoundInit) :
    (startRound g ri).gorillas = ri.gorillas := rfl

theorem startRound_wind (g : GameState) (ri : RoundInit) :
    (startRound g ri).wind_speed = ri.wind := rfl

theorem startRound_score_appends (g : GameState) (ri : RoundInit) :
    (startRound g ri).score_appends = g.score_appends := rfl

theorem winsOf_bumpWins (w : Nat × Nat) (i : Nat) :
    winsOf (bumpWins w i) i = winsOf w i + 1 := by
  unfold winsOf bumpWins
  split <;> simp

theorem resolveHit_projectile (g : GameState) (w l : Nat) (ri : RoundInit) :
    (resolveHit g w l ri).projectile = none := by
  simp only [resolveHit, updateStatus, startRound]
  split <;> rfl

/-- `resolve_hit` when the winner's tally was 1 before the hit: the
bump reaches the threshold 2. -/
theorem resolveHit_reach_two (g : GameState) (w l : Nat) (ri : RoundInit)
    (h : winsOf g.round_wins w = 1) :
    (resolveHit g w l ri).match_over = true ∧
    (resolveHit g w l ri).projectile = none ∧
    (resolveHit g w l ri).score_appends = g.score_appends + 1 ∧
    (resolveHit g w l ri).current_player = g.current_player ∧
    (resolveHit g w l ri).current_round = g.current_round := by
  have hb : winsOf (bumpWins g.round_wins w) w = 2 := by
    rw [winsOf_bumpWins, h]
  simp only [resolveHit, updateStatus]
  rw [if_pos (by omega)]
  exact ⟨rfl, rfl, rfl, rfl, rfl⟩

/-- `resolve_hit` when the winner's tally was 0 before the hit: the
bump reaches only 1, the round advances and a fresh round starts. -/
theorem resolveHit_reach_one (g : GameState) (w l : Nat) (ri : RoundInit)
    (h : winsOf g.round_wins w = 0) :
    (resolveHit g w l ri).match_over = g.match_over ∧
    (resolveHit g w l ri).current_round = g.current_round + 1 ∧
    (resolveHit g w l ri).skyline = ri.skyline ∧
    (resolveHit g w l ri).gorillas = ri.gorillas ∧
    (resolveHit g w l ri).wind_speed = ri.wind ∧
    (resolveHit g w l ri).projectile = none ∧
    (resolveHit g w l ri).score_appends = g.score_appends ∧
    (resolveHit g w l ri).current_player
      = if (g.current_round + 1) % 2 = 1 then 0 else 1 := by
  have hb : winsOf (bumpWins g.round_wins w) w = 1 := by
    rw [winsOf_bumpWins, h]
  simp only [resolveHit, updateStatus, startRound]
  rw [if_neg (by omega)]
  exact ⟨rfl, rfl, rfl, rfl, rfl, rfl, rfl, rfl⟩

/-- Either branch of `resolve_hit`: the match ends with the turn owner
untouched, or the round number advances and the next round's owner is
set by parity. -/
theorem resolveHit_cases (g : GameState) (w l : Nat) (ri : RoundInit) :
    ((resolveHit g w l ri).match_over = true ∧
     (resolveHit g w l ri).current_player = g.current_player)
    ∨ ((resolveHit g w l ri).match_over = g.match_over ∧
       (resolveHit g w l ri).current_round = g.current_round + 1 ∧
       (resolveHit g w l ri).current_player
         = if (g.current_round + 1) % 2 = 1 then 0 else 1) := by
  simp only [resolveHit, updateStatus, startRound]
  by_cases hc : 2 ≤ winsOf (bumpWins g.round_wins w) w
  · left
    rw [if_pos hc]
    exact ⟨rfl, rfl⟩
  · right
    rw [if_neg hc]
    exact ⟨rfl, rfl, rfl⟩

theorem gameUpdate_none (g : GameState) (dt : ℚ) (ri : RoundInit)
    (h : g.projectile = none) : gameUpdate g dt ri = (g, Outcome.cont) := by
  unfold gameUpdate
  rw [h]

/-- While a projectile is live, the outcome component of a tick is
exactly the resolver's verdict on the updated, truncated position. -/
theorem gameUpdate_snd (g : GameState) (dt : ℚ) (ri : RoundInit) (p0 : Proj)
    (h : g.projectile = some p0) :
    (gameUpdate g dt ri).2
      = resolveOutcome g.skyline g.gorillas g.current_player
          (pyInt (p0.update dt).pos.1) (pyInt (p0.update dt).pos.2) := by
  unfold gameUpdate
  rw [h]
  cases hr : resolveOutcome g.skyline g.gorillas g.current_player
      (pyInt (p0.update dt).pos.1) (pyInt (p0.update dt).pos.2) <;> simp [hr]


theorem gameUpdate_oob (g : GameState) (dt : ℚ) (ri : RoundInit) (p0 : Proj)
    (h : g.projectile = some p0)
    (hr : resolveOutcome g.skyline g.gorillas g.current_player
        (pyInt (p0.update dt).pos.1) (pyInt (p0.update dt).pos.2) = Outcome.outOfBounds) :
    (gameUpdate g dt ri).1
      = switchTurn { g with projectile := (none : Option Proj) } msgFell := by
  unfold gameUpdate
  rw [h]
  simp [hr]

theorem gameUpdate_terrain (g : GameState) (dt : ℚ) (ri : RoundInit) (p0 : Proj)
    (h : g.projectile = some p0)
    (hr : resolveOutcome g.skyline g.gorillas g.current_player
        (pyInt (p0.update dt).pos.1) (pyInt (p0.update dt).pos.2) = Outcome.terrainHit) :
    (gameUpdate g dt ri).1
      = switchTurn
          { g with
            skyline := g.skyline.carve_explosion
              (pyInt (p0.update dt).pos.1, pyInt (p0.update dt).pos.2) EXPLOSION_RADIUS
            projectile := (none : Option Proj) }
          (playerName g g.current_player ++ " a touché un immeuble !") := by
  unfold gameUpdate
  rw [h]
  simp [hr]

theorem gameUpdate_hit (g : GameState) (dt : ℚ) (ri : RoundInit) (p0 : Proj) (w l : Nat)
    (h : g.projectile = some p0)
    (hr : resolveOutcome g.skyline g.gorillas g.current_player
        (pyInt (p0.update dt).pos.1) (pyInt (p0.update dt).pos.2) = Outcome.gorillaHit w l) :
    (gameUpdate g dt ri).1
      = resolveHit { g with projectile := (none : Option Proj) } w l ri := by
  unfold gameUpdate
  rw [h]
  simp [hr]

theorem gameUpdate_cont (g : GameState) (dt : ℚ) (ri : RoundInit) (p0 : Proj)
    (h : g.projectile = some p0)
    (hr : resolveOutcome g.skyline g.gorillas g.current_player
        (pyInt (p0.update dt).pos.1) (pyInt (p0.update dt).pos.2) = Outcome.cont) :
    (gameUpdate g dt ri).1 = { g with projectile := some (p0.update dt) } := by
  unfold gameUpdate
  rw [h]
  simp [hr]

/-! ### Resolver inversion lemmas -/

theorem gorillaOutcome_hit (gs : GorillaM × GorillaM) (cp : Nat) (px py : Int) (w l : Nat)
    (hr : gorillaOutcome gs cp px py = Outcome.gorillaHit w l) :
    w = (if l ≠ cp then cp else 1 - cp) ∧ hitIndex gs px py = some l := by
  unfold gorillaOutcome at hr
  cases h1 : hitIndex gs px py with
  | none => rw [h1] at hr; simp at hr
  | some idx =>
    rw [h1] at hr
    have hw : (if idx ≠ cp then cp else 1 - cp) = w ∧ idx = l := by
      simpa using hr
    obtain ⟨hw1, hw2⟩ := hw
    subst hw2
    exact ⟨hw1.symm, rfl⟩

theorem resolveOutcome_hit (sky : Skyline) (gs : GorillaM × GorillaM) (cp : Nat)
    (px py : Int) (w l : Nat)
    (hr : resolveOutcome sky gs cp px py = Outcome.gorillaHit w l) :
    w = (if l ≠ cp then cp else 1 - cp) ∧ hitIndex gs px py = some l := by
  unfold resolveOutcome at hr
  split at hr
  · simp at hr
  · split at hr
    · exact gorillaOutcome_hit gs cp px py w l hr
    · split at hr
      · simp at hr
      · exact gorillaOutcome_hit gs cp px py w l hr


/-! ### Spec-side resolution order (for the refinement claim C1) -/

/-- The four tick verdicts, without payloads. -/
inductive Kind where
  | cont
  | oob
  | terrain
  | hit
deriving DecidableEq

/-- Forget the winner/loser payload of an outcome. -/
def Outcome.kind : Outcome → Kind
  | Outcome.cont => Kind.cont
  | Outcome.outOfBounds => Kind.oob
  | Outcome.terrainHit => Kind.terrain
  | Outcome.gorillaHit _ _ => Kind.hit

/-- The claim's wording of the per-tick resolution, in its strict
priority order: out-of-bounds on `px < 0 ∨ px ≥ W ∨ py ≥ H`; else
terrain-hit when the terrain is occupied at `(px, py)`, a position with
`py < 0` being treated as not occupied; else combatant-hit when some
combatant's bounding box contains `(px, py)`; else continue. -/
def specResolveKind (sky : Skyline) (gs : GorillaM × GorillaM) (px py : Int) : Kind :=
  if px < 0 ∨ SCREEN_WIDTH ≤ px ∨ SCREEN_HEIGHT ≤ py then Kind.oob
  else if (if py < 0 then false else sky.collides (px, py)) then Kind.terrain
  else if gs.1.rect.collidepoint px py || gs.2.rect.collidepoint px py then Kind.hit
  else Kind.cont

theorem kind_cont : Outcome.cont.kind = Kind.cont := rfl

theorem kind_oob : Outcome.outOfBounds.kind = Kind.oob := rfl

theorem kind_terrain : Outcome.terrainHit.kind = Kind.terrain := rfl

theorem kind_hit (w l : Nat) : (Outcome.gorillaHit w l).kind = Kind.hit := rfl

theorem gorillaOutcome_kind (gs : GorillaM × GorillaM) (cp : Nat) (px py : Int) :
    (gorillaOutcome gs cp px py).kind
      = (if gs.1.rect.collidepoint px py || gs.2.rect.collidepoint px py then Kind.hit
         else Kind.cont) := by
  unfold gorillaOutcome hitIndex
  cases h1 : gs.1.rect.collidepoint px py <;>
    cases h2 : gs.2.rect.collidepoint px py <;>
      simp [h1, h2, Outcome.kind]

/-- When a point is above the top of the screen the terrain query is
false by its own bounds check. -/
theorem collides_neg_y (sky : Skyline) (px py : Int) (h : py < 0) :
    sky.collides (px, py) = false := by
  unfold Skyline.collides
  rw [if_neg]
  intro hc
  omega

/-- The code's branch order in `GorillaGame.update` matches the claim's
wording verdict for verdict. -/
theorem resolveOutcome_kind_eq_spec (sky : Skyline) (gs : GorillaM × GorillaM) (cp : Nat)
    (px py : Int) :
    (resolveOutcome sky gs cp px py).kind = specResolveKind sky gs px py := by
  unfold resolveOutcome specResolveKind
  by_cases h1 : px < 0 ∨ SCREEN_WIDTH ≤ px ∨ SCREEN_HEIGHT ≤ py <;>
    by_cases h2 : py < 0 <;>
      cases h3 : sky.collides (px, py) <;>
        simp only [h1, h2, h3, if_true, if_false, ite_true, ite_false, if_pos, if_neg,
          not_false_iff, Bool.false_eq_true, gorillaOutcome_kind,
          kind_cont, kind_oob, kind_terrain, kind_hit]

/-! ### Terrain lemmas -/

theorem carve_width (s : Skyline) (c : Int × Int) (r : Int) :
    (s.carve_explosion c r).width = s.width := rfl

theorem carve_height (s : Skyline) (c : Int × Int) (r : Int) :
    (s.carve_explosion c r).height = s.height := rfl

/-- The carved alpha at any point is either cleared to 0 or untouched. -/
theorem carve_alpha_cases (s : Skyline) (c : Int × Int) (r : Int) (x y : Int) :
    (s.carve_explosion c r).alpha x y = 0 ∨
    (s.carve_explosion c r).alpha x y = s.alpha x y := by
  simp only [Skyline.carve_explosion]
  split
  · exact Or.inl rfl
  · exact Or.inr rfl

theorem carve_collides_mono (s : Skyline) (c : Int × Int) (r : Int) (q : Int × Int)
    (h : (s.carve_explosion c r).collides q = true) : s.collides q = true := by
  simp only [Skyline.collides, carve_width, carve_height] at h ⊢
  by_cases hb : 0 ≤ q.1 ∧ q.1 < s.width ∧ 0 ≤ q.2 ∧ q.2 < s.height
  · rw [if_pos hb] at h ⊢
    rcases carve_alpha_cases s c r q.1 q.2 with ha | ha
    · rw [ha] at h
      simp at h
    · rw [ha] at h
      exact h
  · rw [if_neg hb] at h
    exact absurd h (by simp)

/-- Folding any sequence of carve operations over a skyline only ever
clears occupancy. -/
theorem carve_foldl_mono (ops : List ((Int × Int) × Int)) :
    ∀ (s : Skyline) (q : Int × Int),
      ((ops.foldl (fun t op => t.carve_explosion op.1 op.2) s).collides q = true) →
      s.collides q = true := by
  induction ops with
  | nil => intro s q h; simpa using h
  | cons op rest ih =>
    intro s q h
    exact carve_collides_mono s op.1 op.2 q (ih (s.carve_explosion op.1 op.2) q h)


/-! ### Flight termination (for C9): iterated integrator steps -/

/-- `n` successive `Projectile.update(dt)` steps. -/
def projIterate (dt : ℚ) (p : Proj) : Nat → Proj
  | 0 => p
  | n + 1 => (projIterate dt p n).update dt

/-- The drag-limited terminal fall speed `GRAVITY / DRAG_COEFF`. -/
def termVel : ℚ := GRAVITY / DRAG_COEFF

theorem DRAG_COEFF_pos : (0 : ℚ) < DRAG_COEFF := by norm_num [DRAG_COEFF]

theorem termVel_pos : (0 : ℚ) < termVel := by norm_num [termVel, GRAVITY, DRAG_COEFF]

theorem drag_mul_termVel : DRAG_COEFF * termVel = GRAVITY := by
  norm_num [termVel, GRAVITY, DRAG_COEFF]

/-- The vertical velocity recurrence of one integrator step. -/
theorem update_vel_y (p : Proj) (dt : ℚ) :
    (p.update dt).vel.2 = (1 - DRAG_COEFF * dt) * p.vel.2 + GRAVITY * dt := by
  simp only [Proj.update]
  ring

/-- The vertical position recurrence of one integrator step (position
moves by the updated velocity: semi-implicit Euler). -/
theorem update_pos_y (p : Proj) (dt : ℚ) :
    (p.update dt).pos.2 = p.pos.2 + (p.update dt).vel.2 * dt := by
  simp only [Proj.update]

theorem projIterate_shift (dt : ℚ) (p : Proj) :
    ∀ n, projIterate dt p (n + 1) = projIterate dt (p.update dt) n := by
  intro n
  induction n with
  | zero => rfl
  | succ n ih =>
    show (projIterate dt p (n + 1)).update dt = (projIterate dt (p.update dt) n).update dt
    rw [ih]

/-- Closed form of the gap to the terminal fall speed. -/
theorem termVel_gap_pow (dt : ℚ) (p : Proj) :
    ∀ n, termVel - (projIterate dt p n).vel.2
      = (1 - DRAG_COEFF * dt) ^ n * (termVel - p.vel.2) := by
  intro n
  induction n with
  | zero => simp [projIterate]
  | succ n ih =>
    show termVel - ((projIterate dt p n).update dt).vel.2 = _
    rw [update_vel_y, pow_succ]
    linear_combination (1 - DRAG_COEFF * dt) * ih + dt * drag_mul_termVel

/-- After finitely many steps the vertical velocity stays at or above
half the terminal fall speed. -/
theorem vel_eventually_ge (dt : ℚ) (p : Proj) (h1 : 0 < dt) (h2 : DRAG_COEFF * dt < 1) :
    ∃ N : Nat, ∀ m : Nat, termVel / 2 ≤ (projIterate dt p (N + m)).vel.2 := by
  have hkpos : (0 : ℚ) < DRAG_COEFF := DRAG_COEFF_pos
  have ha0 : (0 : ℚ) < 1 - DRAG_COEFF * dt := by linarith
  have ha1 : 1 - DRAG_COEFF * dt < 1 := by nlinarith
  by_cases hd : termVel - p.vel.2 ≤ 0
  · refine ⟨0, fun m => ?_⟩
    rw [Nat.zero_add]
    have hg := termVel_gap_pow dt p m
    have hpow : (0 : ℚ) < (1 - DRAG_COEFF * dt) ^ m := pow_pos ha0 m
    nlinarith [termVel_pos]
  · push_neg at hd
    have hε : (0 : ℚ) < termVel / 2 / (termVel - p.vel.2) :=
      div_pos (by linarith [termVel_pos]) hd
    obtain ⟨N, hN⟩ := exists_pow_lt_of_lt_one hε ha1
    refine ⟨N, fun m => ?_⟩
    have hg := termVel_gap_pow dt p (N + m)
    have hpowm : (1 - DRAG_COEFF * dt) ^ m ≤ 1 := pow_le_one₀ ha0.le ha1.le
    have hpowN : (0 : ℚ) < (1 - DRAG_COEFF * dt) ^ N := pow_pos ha0 N
    have hNd : (1 - DRAG_COEFF * dt) ^ N * (termVel - p.vel.2) < termVel / 2 :=
      (lt_div_iff₀ hd).mp hN
    have hsplit : (1 - DRAG_COEFF * dt) ^ (N + m) * (termVel - p.vel.2)
        ≤ (1 - DRAG_COEFF * dt) ^ N * (termVel - p.vel.2) := by
      rw [pow_add]
      have hbound : (1 - DRAG_COEFF * dt) ^ N * (1 - DRAG_COEFF * dt) ^ m
          ≤ (1 - DRAG_COEFF * dt) ^ N := by
        nlinarith
      exact mul_le_mul_of_nonneg_right hbound hd.le
    linarith

/-- Linear growth of the vertical position once the velocity is bounded
below. -/
theorem pos_growth (dt : ℚ) (p : Proj) (h1 : 0 < dt) (N : Nat)
    (hv : ∀ m : Nat, termVel / 2 ≤ (projIterate dt p (N + m)).vel.2) :
    ∀ m : Nat, (projIterate dt p N).pos.2 + (m : ℚ) * (termVel / 2 * dt)
      ≤ (projIterate dt p (N + m)).pos.2 := by
  intro m
  induction m with
  | zero => simp
  | succ m ih =>
    have hpos : (projIterate dt p (N + m + 1)).pos.2
        = (projIterate dt p (N + m)).pos.2 + (projIterate dt p (N + m + 1)).vel.2 * dt :=
      update_pos_y (projIterate dt p (N + m)) dt
    have hvel : termVel / 2 ≤ (projIterate dt p (N + (m + 1))).vel.2 := hv (m + 1)
    have heq : N + (m + 1) = N + m + 1 := by omega
    rw [heq] at hvel
    have hstep : termVel / 2 * dt ≤ (projIterate dt p (N + m + 1)).vel.2 * dt :=
      mul_le_mul_of_nonneg_right hvel h1.le
    have hgoal : (projIterate dt p N).pos.2 + ((m : ℚ) + 1) * (termVel / 2 * dt)
        ≤ (projIterate dt p (N + m + 1)).pos.2 := by
      rw [hpos]
      linarith
    rw [show N + (m + 1) = N + m + 1 from by omega]
    push_cast
    push_cast at hgoal
    linarith

/-- Repeated integration always pushes the vertical position past any
bound, in particular past the bottom of the field. -/
theorem exists_high (dt : ℚ) (p : Proj) (h1 : 0 < dt) (h2 : DRAG_COEFF * dt < 1) :
    ∃ n : Nat, ((SCREEN_HEIGHT : Int) : ℚ) ≤ (projIterate dt p n).pos.2 := by
  obtain ⟨N, hv⟩ := vel_eventually_ge dt p h1 h2
  have hc : (0 : ℚ) < termVel / 2 * dt := mul_pos (by linarith [termVel_pos]) h1
  obtain ⟨m, hm⟩ :=
    Archimedean.arch (((SCREEN_HEIGHT : Int) : ℚ) - (projIterate dt p N).pos.2) hc
  refine ⟨N + m, ?_⟩
  have hg := pos_growth dt p h1 N hv m
  rw [nsmul_eq_mul] at hm
  linarith

/-- A rational at or above the (positive) screen height truncates to an
integer at or above the screen height. -/
theorem pyInt_ge_height (q : ℚ) (h : ((SCREEN_HEIGHT : Int) : ℚ) ≤ q) :
    SCREEN_HEIGHT ≤ pyInt q := by
  have hq0 : ¬q < 0 := by
    have : ((SCREEN_HEIGHT : Int) : ℚ) = 720 := by norm_num [SCREEN_HEIGHT]
    rw [this] at h
    linarith
  unfold pyInt
  rw [if_neg hq0]
  exact Int.le_floor.mpr h


/-! ### Concrete fixtures for witnesses and counterexamples -/

/-- An all-sky terrain of field size. -/
def skyW : Skyline :=
  { width := SCREEN_WIDTH, height := SCREEN_HEIGHT, alpha := fun _ _ => 0 }

/-- An all-solid terrain of field size. -/
def skySolid : Skyline :=
  { width := SCREEN_WIDTH, height := SCREEN_HEIGHT, alpha := fun _ _ => 255 }

def gorW : GorillaM := { rect := { x := 100, y := 600, w := 42, h := 48 }, direction := 1 }

def gorW2 : GorillaM := { rect := { x := 1000, y := 600, w := 42, h := 48 }, direction := -1 }

/-- A gorilla whose box contains the point (300, 300). -/
def gorWHit : GorillaM := { rect := { x := 290, y := 290, w := 42, h := 48 }, direction := 1 }

def projW : Proj := { pos := (300, 300), vel := (0, 0), wind_speed := 0, trail := [] }

/-- A mid-flight state: projectile live, match not over. -/
def gW : GameState :=
  { skyline := skyW
    projectile := some projW
    current_player := 0
    wind_speed := 0
    round_wins := (0, 0)
    current_round := 1
    match_over := false
    gorillas := (gorW, gorW2)
    status_message := ""
    score_appends := 0
    names := ("A", "B") }

def riW : RoundInit := { skyline := skyW, gorillas := (gorW, gorW2), wind := 0 }

/-- Like `gW` but the first gorilla sits where the projectile is: the
current player (player 0) is about to hit itself. -/
def gW5 : GameState := { gW with gorillas := (gorWHit, gorW2) }

/-- No projectile, player 0 already has one round win. -/
def gW3 : GameState := { gW with projectile := none, round_wins := (1, 0) }

def entryW : ScoreEntry :=
  { timestamp := "t", winner := "A", loser := "B", rounds := (2, 0), wind := 0 }

/-! ### The claims -/

/-- C1: while a projectile is live, each tick resolves exactly one of
continue, out-of-bounds, terrain-hit, combatant-hit, evaluated in that
strict priority order on the truncated position (px, py): out-of-bounds
on px < 0 or px ≥ W or py ≥ H with no terrain or combatant check; else
terrain-hit when the terrain is occupied (py < 0 treated as not
occupied), carving the terrain with EXPLOSION_RADIUS there; else
combatant-hit when some bounding box contains the point; otherwise
flight continues (so py < 0 alone is never terminal); and on any
terminal outcome the projectile is destroyed immediately. -/
theorem c1_tick_resolution (g : GameState) (dt : ℚ) (ri : RoundInit) (p : Proj)
    (h : g.projectile = some p) :
    ((gameUpdate g dt ri).2).kind
        = specResolveKind g.skyline g.gorillas
            (pyInt (p.update dt).pos.1) (pyInt (p.update dt).pos.2)
    ∧ ((gameUpdate g dt ri).2 ≠ Outcome.cont → (gameUpdate g dt ri).1.projectile = none)
    ∧ ((gameUpdate g dt ri).2 = Outcome.outOfBounds →
        (gameUpdate g dt ri).1.skyline = g.skyline)
    ∧ ((gameUpdate g dt ri).2 = Outcome.terrainHit →
        (gameUpdate g dt ri).1.skyline
          = g.skyline.carve_explosion
              (pyInt (p.update dt).pos.1, pyInt (p.update dt).pos.2) EXPLOSION_RADIUS)
    ∧ ((gameUpdate g dt ri).2 = Outcome.cont →
        (gameUpdate g dt ri).1.projectile = some (p.update dt)) := by
  have hsnd := gameUpdate_snd g dt ri p h
  refine ⟨by rw [hsnd, resolveOutcome_kind_eq_spec], ?_, ?_, ?_, ?_⟩
  · intro hne
    rw [hsnd] at hne
    cases hr : resolveOutcome g.skyline g.gorillas g.current_player
        (pyInt (p.update dt).pos.1) (pyInt (p.update dt).pos.2) with
    | cont => exact absurd hr hne
    | outOfBounds => rw [gameUpdate_oob g dt ri p h hr, switchTurn_projectile]
    | terrainHit => rw [gameUpdate_terrain g dt ri p h hr, switchTurn_projectile]
    | gorillaHit w l => rw [gameUpdate_hit g dt ri p w l h hr, resolveHit_projectile]
  · intro hoob
    rw [hsnd] at hoob
    rw [gameUpdate_oob g dt ri p h hoob, switchTurn_skyline]
  · intro ht
    rw [hsnd] at ht
    rw [gameUpdate_terrain g dt ri p h ht, switchTurn_skyline]
  · intro hc
    rw [hsnd] at hc
    rw [gameUpdate_cont g dt ri p h hc]

theorem c1_witness :
    gW.projectile = some projW ∧
    ((gameUpdate gW 0 riW).2).kind
      = specResolveKind gW.skyline gW.gorillas
          (pyInt (projW.update 0).pos.1) (pyInt (projW.update 0).pos.2) :=
  ⟨rfl, (c1_tick_resolution gW 0 riW projW rfl).1⟩

/-- C2: one integration step computes exactly rel_vx = vx − w,
ax = −DRAG_COEFF·rel_vx, ay = GRAVITY − DRAG_COEFF·vy,
vx' = vx + ax·dt, vy' = vy + ay·dt, pos' = pos + (vx', vy')·dt
(velocity before position); a fire of speed s > 0 at θ degrees launches
with velocity (s·cos θ, −s·sin θ), θ first mirrored to 180° − θ when
combatant 1 fires. -/
theorem c2_integration_and_launch :
    (∀ (p : Proj) (dt : ℚ), 0 < dt →
       (p.update dt).vel.1
           = p.vel.1 + -DRAG_COEFF * (p.vel.1 - p.wind_speed) * dt
       ∧ (p.update dt).vel.2
           = p.vel.2 + (GRAVITY - DRAG_COEFF * p.vel.2) * dt
       ∧ (p.update dt).pos.1 = p.pos.1 + (p.update dt).vel.1 * dt
       ∧ (p.update dt).pos.2 = p.pos.2 + (p.update dt).vel.2 * dt)
    ∧ (∀ s θ : ℝ, 0 < s →
         launchVel s θ
           = (s * Real.cos (θ * (Real.pi / 180)),
              -(s * Real.sin (θ * (Real.pi / 180)))))
    ∧ (∀ a : ℚ, effectiveAngle 1 a = 180 - a ∧ effectiveAngle 0 a = a) := by
  refine ⟨?_, ?_, ?_⟩
  · intro p dt _
    exact ⟨rfl, rfl, rfl, rfl⟩
  · intro s θ _
    simp only [launchVel, Prod.mk.injEq]
    constructor <;> ring
  · intro a
    constructor <;> simp [effectiveAngle]

theorem c2_witness :
    (0 : ℚ) < 1 ∧ (0 : ℝ) < 100 ∧
    (projW.update 1).vel.2 = projW.vel.2 + (GRAVITY - DRAG_COEFF * projW.vel.2) * 1 ∧
    launchVel 100 45
      = (100 * Real.cos (45 * (Real.pi / 180)), -(100 * Real.sin (45 * (Real.pi / 180)))) :=
  ⟨by norm_num, by norm_num,
   (c2_integration_and_launch.1 projW 1 (by norm_num)).2.1,
   c2_integration_and_launch.2.1 100 45 (by norm_num)⟩

theorem handleFire_score_appends (g : GameState) (angleIn speedIn : Option ℚ)
    (mkVel : ℚ → ℚ → ℚ × ℚ) :
    (handleFire g angleIn speedIn mkVel).score_appends = g.score_appends := by
  unfold handleFire updateStatus
  split
  · rfl
  · rcases angleIn with _ | a
    · rfl
    · rcases speedIn with _ | sp
      · rfl
      · dsimp only
        split
        · rfl
        · rfl

/-- C3: a round-win counter reaching 2 on a combatant-hit always sets
match-over, destroys the projectile and performs exactly one score-store
append (and afterwards no tick or fire request can append again); a
counter reaching only 1 never ends the match, increments the round
number and starts a fresh round (terrain regenerated, combatants
re-placed, wind resampled). -/
theorem c3_win_threshold (g : GameState) (winner loser : Nat) (ri : RoundInit) :
    (winsOf g.round_wins winner = 1 →
      (resolveHit g winner loser ri).match_over = true
      ∧ (resolveHit g winner loser ri).projectile = none
      ∧ (resolveHit g winner loser ri).score_appends = g.score_appends + 1)
    ∧ (winsOf g.round_wins winner = 0 → g.match_over = false →
      (resolveHit g winner loser ri).match_over = false
      ∧ (resolveHit g winner loser ri).current_round = g.current_round + 1
      ∧ (resolveHit g winner loser ri).skyline = ri.skyline
      ∧ (resolveHit g winner loser ri).gorillas = ri.gorillas
      ∧ (resolveHit g winner loser ri).wind_speed = ri.wind
      ∧ (resolveHit g winner loser ri).score_appends = g.score_appends)
    ∧ (∀ (dt : ℚ) (ri2 : RoundInit), g.match_over = true → g.projectile = none →
        (gameUpdate g dt ri2).1 = g)
    ∧ (∀ (angleIn speedIn : Option ℚ) (mkVel : ℚ → ℚ → ℚ × ℚ),
        (handleFire g angleIn speedIn mkVel).score_appends = g.score_appends) := by
  refine ⟨?_, ?_, ?_, ?_⟩
  · intro h1
    obtain ⟨a, b, c, _, _⟩ := resolveHit_reach_two g winner loser ri h1
    exact ⟨a, b, c⟩
  · intro h0 hmo
    obtain ⟨a, b, c, d, e, _, f, _⟩ := resolveHit_reach_one g winner loser ri h0
    exact ⟨hmo ▸ a, b, c, d, e, f⟩
  · intro dt ri2 _ hp
    rw [gameUpdate_none g dt ri2 hp]
  · intro angleIn speedIn mkVel
    exact handleFire_score_appends g angleIn speedIn mkVel

theorem c3_witness :
    winsOf gW3.round_wins 0 = 1 ∧
    (resolveHit gW3 0 1 riW).match_over = true ∧
    (resolveHit gW3 0 1 riW).projectile = none ∧
    (resolveHit gW3 0 1 riW).score_appends = gW3.score_appends + 1 :=
  ⟨rfl, (c3_win_threshold gW3 0 1 riW).1 rfl⟩


theorem handleFire_guard (g : GameState) (angleIn speedIn : Option ℚ)
    (mkVel : ℚ → ℚ → ℚ × ℚ) (hc : (g.projectile.isSome || g.match_over) = true) :
    handleFire g angleIn speedIn mkVel = g := by
  unfold handleFire
  rw [if_pos hc]

theorem handleFire_match_over (g : GameState) (angleIn speedIn : Option ℚ)
    (mkVel : ℚ → ℚ → ℚ × ℚ) :
    (handleFire g angleIn speedIn mkVel).match_over = g.match_over := by
  unfold handleFire updateStatus
  split
  · rfl
  · rcases angleIn with _ | a
    · rfl
    · rcases speedIn with _ | sp
      · rfl
      · dsimp only
        split
        · rfl
        · rfl

/-- C4: every miss outcome (terrain-hit or out-of-bounds) flips the turn
owner; a combatant-hit never applies a mid-round flip (the match ends
with the owner untouched, or the round advances and the owner is reset);
round setup sets the owner purely by round-number parity; and the
supporting invariant that a live projectile implies the match is not
over is preserved by every operation. -/
theorem c4_turn_alternation (g : GameState) (dt : ℚ) (ri : RoundInit) (p : Proj)
    (h : g.projectile = some p) (hmo : g.match_over = false) :
    (((gameUpdate g dt ri).2 = Outcome.outOfBounds ∨
        (gameUpdate g dt ri).2 = Outcome.terrainHit) →
      (gameUpdate g dt ri).1.current_player = 1 - g.current_player)
    ∧ (∀ w l, (gameUpdate g dt ri).2 = Outcome.gorillaHit w l →
        ((gameUpdate g dt ri).1.match_over = true
          ∧ (gameUpdate g dt ri).1.current_player = g.current_player)
        ∨ ((gameUpdate g dt ri).1.current_round = g.current_round + 1
          ∧ (gameUpdate g dt ri).1.current_player
              = if (g.current_round + 1) % 2 = 1 then 0 else 1))
    ∧ (∀ (g2 : GameState) (ri2 : RoundInit),
        (startRound g2 ri2).current_player
          = if g2.current_round % 2 = 1 then 0 else 1)
    ∧ (∀ g2 : GameState, (g2.match_over = true → g2.projectile = none) →
        ∀ (dt2 : ℚ) (ri2 : RoundInit) (angleIn speedIn : Option ℚ)
          (mkVel : ℚ → ℚ → ℚ × ℚ),
          ((gameUpdate g2 dt2 ri2).1.match_over = true →
            (gameUpdate g2 dt2 ri2).1.projectile = none)
          ∧ ((handleFire g2 angleIn speedIn mkVel).match_over = true →
            (handleFire g2 angleIn speedIn mkVel).projectile = none)
          ∧ ((startRound g2 ri2).match_over = true →
            (startRound g2 ri2).projectile = none)) := by
  have hsnd := gameUpdate_snd g dt ri p h
  refine ⟨?_, ?_, ?_, ?_⟩
  · intro hout
    rcases hout with hout | hout
    · rw [hsnd] at hout
      rw [gameUpdate_oob g dt ri p h hout]
      exact switchTurn_player _ _ hmo
    · rw [hsnd] at hout
      rw [gameUpdate_terrain g dt ri p h hout]
      exact switchTurn_player _ _ hmo
  · intro w l hw
    rw [hsnd] at hw
    rw [gameUpdate_hit g dt ri p w l h hw]
    rcases resolveHit_cases { g with projectile := (none : Option Proj) } w l ri with
      ⟨a, b⟩ | ⟨_, b, c⟩
    · exact Or.inl ⟨a, b⟩
    · exact Or.inr ⟨b, c⟩
  · intro g2 ri2
    exact startRound_player g2 ri2
  · intro g2 hinv dt2 ri2 angleIn speedIn mkVel
    refine ⟨?_, ?_, fun _ => startRound_projectile g2 ri2⟩
    · cases hp : g2.projectile with
      | none =>
        rw [gameUpdate_none g2 dt2 ri2 hp]
        exact hinv
      | some p0 =>
        have hmo2 : g2.match_over = false := by
          cases hmo2 : g2.match_over
          · rfl
          · exact absurd (hinv hmo2) (by rw [hp]; simp)
        cases hr : resolveOutcome g2.skyline g2.gorillas g2.current_player
            (pyInt (p0.update dt2).pos.1) (pyInt (p0.update dt2).pos.2) with
        | cont =>
          rw [gameUpdate_cont g2 dt2 ri2 p0 hp hr]
          intro habs
          simp [hmo2] at habs
        | outOfBounds =>
          rw [gameUpdate_oob g2 dt2 ri2 p0 hp hr, switchTurn_projectile]
          intro _
          rfl
        | terrainHit =>
          rw [gameUpdate_terrain g2 dt2 ri2 p0 hp hr, switchTurn_projectile]
          intro _
          rfl
        | gorillaHit w l =>
          rw [gameUpdate_hit g2 dt2 ri2 p0 w l hp hr]
          intro _
          exact resolveHit_projectile _ w l ri2
    · intro habs
      rw [handleFire_match_over] at habs
      by_cases hgd : (g2.projectile.isSome || g2.match_over) = true
      · rw [handleFire_guard g2 angleIn speedIn mkVel hgd]
        exact hinv habs
      · exfalso
        simp only [Bool.or_eq_true, not_or] at hgd
        exact hgd.2 habs

theorem c4_witness :
    gW.projectile = some projW ∧ gW.match_over = false ∧
    (startRound gW riW).current_player = if gW.current_round % 2 = 1 then 0 else 1 :=
  ⟨rfl, rfl, (c4_turn_alternation gW 0 riW projW rfl rfl).2.2.1 gW riW⟩

/-- C5: on a combatant-hit, the credited winner is the thrower when the
struck box belongs to the opponent, and the non-throwing combatant when
the struck box is the thrower's own: a self-hit is never credited to
the shooter. -/
theorem c5_self_hit (g : GameState) (dt : ℚ) (ri : RoundInit) (w l : Nat)
    (h : (gameUpdate g dt ri).2 = Outcome.gorillaHit w l) :
    (l ≠ g.current_player → w = g.current_player)
    ∧ (l = g.current_player →
        w = 1 - g.current_player ∧ w ≠ g.current_player) := by
  cases hp : g.projectile with
  | none =>
    rw [gameUpdate_none g dt ri hp] at h
    simp at h
  | some p0 =>
    have hsnd := gameUpdate_snd g dt ri p0 hp
    rw [hsnd] at h
    obtain ⟨hw, _⟩ := resolveOutcome_hit g.skyline g.gorillas g.current_player _ _ w l h
    constructor
    · intro hne
      rw [hw, if_pos hne]
    · intro heq
      rw [hw, if_neg (by simp [heq])]
      exact ⟨rfl, by omega⟩

theorem c5_witness :
    (gameUpdate gW5 0 riW).2 = Outcome.gorillaHit 1 0 ∧
    (0 = gW5.current_player → 1 = 1 - gW5.current_player ∧ 1 ≠ gW5.current_player) := by
  have h : (gameUpdate gW5 0 riW).2 = Outcome.gorillaHit 1 0 := by
    norm_num [gameUpdate, gW5, gW, projW, Proj.update, pyInt, resolveOutcome, gorillaOutcome,
      hitIndex, gorWHit, gorW2, skyW, Skyline.collides, Rect.collidepoint,
      SCREEN_WIDTH, SCREEN_HEIGHT, DRAG_COEFF, GRAVITY]
  exact ⟨h, (c5_self_hit gW5 0 riW 1 0 h).2⟩

/-- C6 counterexample: a fire request while a projectile is live is
rejected silently — the state, including the status label, is returned
completely unchanged, so no validation failure is surfaced, against the
claim's "rejected ... and a surfaced validation failure". -/
theorem c6_counterexample :
    handleFire gW (some 45) (some 320) (fun _ _ => (0, 0)) = gW
    ∧ gW.status_message = ""
    ∧ msgInvalid ≠ "" ∧ msgRange ≠ "" := by
  exact ⟨rfl, rfl, by decide, by decide⟩

/-- C6 (amended): fire requests during a live projectile or after match
end are rejected silently with no state change at all; an unparsable
angle or speed, an angle not strictly inside (0°, 180°), or a
non-positive speed is rejected with no simulation-state change and the
corresponding validation message; an accepted request clamps its speed
into [60, 600] before the projectile is constructed and launches
immediately (no request is ever queued). -/
theorem c6_fire_validation (g : GameState) (angleIn speedIn : Option ℚ)
    (mkVel : ℚ → ℚ → ℚ × ℚ) :
    ((g.projectile.isSome || g.match_over) = true →
        handleFire g angleIn speedIn mkVel = g)
    ∧ (g.projectile = none → g.match_over = false →
        ((angleIn = none ∨ speedIn = none) →
            handleFire g angleIn speedIn mkVel = updateStatus g msgInvalid)
        ∧ (∀ a sp, angleIn = some a → speedIn = some sp →
            (¬(0 < a ∧ a < 180) ∨ sp ≤ 0) →
            handleFire g angleIn speedIn mkVel = updateStatus g msgRange)
        ∧ (∀ a sp, angleIn = some a → speedIn = some sp →
            (0 < a ∧ a < 180) → 0 < sp →
            (handleFire g angleIn speedIn mkVel).projectile
              = some
                  { pos := (nthGorilla g.gorillas g.current_player).throwPosition
                    vel := mkVel (max 60 (min sp 600)) (effectiveAngle g.current_player a)
                    wind_speed := g.wind_speed
                    trail := [] }
            ∧ 60 ≤ max 60 (min sp 600) ∧ max 60 (min sp 600) ≤ 600))
    ∧ simFields (updateStatus g msgInvalid) = simFields g
    ∧ simFields (updateStatus g msgRange) = simFields g := by
  refine ⟨?_, ?_, rfl, rfl⟩
  · intro hc
    exact handleFire_guard g angleIn speedIn mkVel hc
  · intro hp hmo
    have hguard : (g.projectile.isSome || g.match_over) = false := by
      rw [hp, hmo]
      rfl
    refine ⟨?_, ?_, ?_⟩
    · intro hnone
      unfold handleFire
      rw [if_neg (by simp [hguard])]
      cases angleIn with
      | none => rfl
      | some a =>
        cases speedIn with
        | none => rfl
        | some sp => rcases hnone with h1 | h1 <;> simp at h1
    · intro a sp ha hs hbad
      subst ha
      subst hs
      unfold handleFire
      rw [if_neg (by simp [hguard])]
      dsimp only
      rw [if_pos hbad]
    · intro a sp ha hs hang hsp
      subst ha
      subst hs
      unfold handleFire updateStatus
      rw [if_neg (by simp [hguard])]
      dsimp only
      rw [if_neg (by push_neg; exact ⟨hang, hsp⟩)]
      exact ⟨rfl, le_max_left _ _, max_le (by norm_num) (min_le_right _ _)⟩

theorem c6_witness :
    (gW.projectile.isSome || gW.match_over) = true ∧
    handleFire gW (some 45) (some 320) (fun _ _ => (0, 0)) = gW :=
  ⟨rfl, (c6_fire_validation gW (some 45) (some 320) (fun _ _ => (0, 0))).1 rfl⟩


theorem resolveHit_skyline (g : GameState) (w l : Nat) (ri : RoundInit) :
    (resolveHit g w l ri).skyline = g.skyline
    ∨ (resolveHit g w l ri).skyline = ri.skyline := by
  simp only [resolveHit, updateStatus, startRound]
  split
  · exact Or.inl rfl
  · exact Or.inr rfl

/-- C7: within a round, terrain occupancy is monotone: carve clears
every in-field point of the Euclidean disk, leaves out-of-field points
and points beyond the radius untouched, is idempotent, and never sets a
point occupied; folding any carve sequence never re-occupies a point;
and a tick's terrain is either the fresh round's regenerated terrain or
an occupancy-decrease of the old one. -/
theorem c7_terrain_monotone (s : Skyline) (c : Int × Int) (r : Int) (x y : Int) :
    ((0 ≤ x ∧ x < s.width ∧ 0 ≤ y ∧ y < s.height ∧
        (x - c.1) ^ 2 + (y - c.2) ^ 2 ≤ r ^ 2) →
      (s.carve_explosion c r).alpha x y = 0
      ∧ (s.carve_explosion c r).collides (x, y) = false)
    ∧ ((¬(0 ≤ x ∧ x < s.width ∧ 0 ≤ y ∧ y < s.height) ∨
        r ^ 2 < (x - c.1) ^ 2 + (y - c.2) ^ 2) →
      (s.carve_explosion c r).alpha x y = s.alpha x y)
    ∧ (s.carve_explosion c r).carve_explosion c r = s.carve_explosion c r
    ∧ ((s.carve_explosion c r).collides (x, y) = true → s.collides (x, y) = true)
    ∧ (∀ ops : List ((Int × Int) × Int),
        (ops.foldl (fun t op => t.carve_explosion op.1 op.2) s).collides (x, y) = true →
        s.collides (x, y) = true)
    ∧ (∀ (g : GameState) (dt : ℚ) (ri : RoundInit),
        (gameUpdate g dt ri).1.skyline = ri.skyline
        ∨ ∀ q, (gameUpdate g dt ri).1.skyline.collides q = true →
            g.skyline.collides q = true) := by
  refine ⟨?_, ?_, ?_, carve_collides_mono s c r (x, y),
    fun ops => carve_foldl_mono ops s (x, y), ?_⟩
  · intro hcond
    have halpha : (s.carve_explosion c r).alpha x y = 0 := by
      simp only [Skyline.carve_explosion]
      rw [if_pos hcond]
    refine ⟨halpha, ?_⟩
    simp only [Skyline.collides, carve_width, carve_height]
    rw [if_pos ⟨hcond.1, hcond.2.1, hcond.2.2.1, hcond.2.2.2.1⟩, halpha]
    simp
  · intro hcond
    simp only [Skyline.carve_explosion]
    rw [if_neg]
    rintro ⟨ha, hb, hc2, hd, he⟩
    rcases hcond with h1 | h1
    · exact h1 ⟨ha, hb, hc2, hd⟩
    · exact absurd he (not_le.mpr h1)
  · obtain ⟨w0, h0, a0⟩ := s
    simp only [Skyline.carve_explosion]
    congr 1
    funext px py
    by_cases hd : 0 ≤ px ∧ px < w0 ∧ 0 ≤ py ∧ py < h0 ∧
        (px - c.1) ^ 2 + (py - c.2) ^ 2 ≤ r ^ 2
    · simp [hd]
    · simp [hd]
  · intro g dt ri
    cases hp : g.projectile with
    | none =>
      right
      intro q hq
      rw [gameUpdate_none g dt ri hp] at hq
      exact hq
    | some p0 =>
      cases hr : resolveOutcome g.skyline g.gorillas g.current_player
          (pyInt (p0.update dt).pos.1) (pyInt (p0.update dt).pos.2) with
      | cont =>
        right
        intro q hq
        rw [gameUpdate_cont g dt ri p0 hp hr] at hq
        exact hq
      | outOfBounds =>
        right
        intro q hq
        rw [gameUpdate_oob g dt ri p0 hp hr, switchTurn_skyline] at hq
        exact hq
      | terrainHit =>
        right
        intro q hq
        rw [gameUpdate_terrain g dt ri p0 hp hr, switchTurn_skyline] at hq
        exact carve_collides_mono g.skyline _ _ q hq
      | gorillaHit w l =>
        rcases resolveHit_skyline { g with projectile := (none : Option Proj) } w l ri with
          hs | hs
        · right
          intro q hq
          rw [gameUpdate_hit g dt ri p0 w l hp hr, hs] at hq
          exact hq
        · left
          rw [gameUpdate_hit g dt ri p0 w l hp hr]
          exact hs

theorem c7_witness :
    (0 ≤ (100 : Int) ∧ (100 : Int) < skySolid.width ∧ 0 ≤ (100 : Int) ∧
      (100 : Int) < skySolid.height ∧
      ((100 : Int) - 100) ^ 2 + ((100 : Int) - 100) ^ 2 ≤ 38 ^ 2) ∧
    (skySolid.carve_explosion (100, 100) 38).collides (100, 100) = false := by
  have hc : 0 ≤ (100 : Int) ∧ (100 : Int) < skySolid.width ∧ 0 ≤ (100 : Int) ∧
      (100 : Int) < skySolid.height ∧
      ((100 : Int) - 100) ^ 2 + ((100 : Int) - 100) ^ 2 ≤ 38 ^ 2 := by
    refine ⟨by decide, by decide, by decide, by decide, by decide⟩
  exact ⟨hc, ((c7_terrain_monotone skySolid (100, 100) 38 100 100).1 hc).2⟩

/-- C8: the terrain occupancy query returns false for every point
outside [0, W) × [0, H) and never raises, for every terrain state. -/
theorem c8_bounds_safety (s : Skyline) (x y : Int)
    (h : x < 0 ∨ s.width ≤ x ∨ y < 0 ∨ s.height ≤ y) :
    s.collides (x, y) = false := by
  unfold Skyline.collides
  dsimp only
  rw [if_neg]
  rintro ⟨h1, h2, h3, h4⟩
  rcases h with h | h | h | h <;> omega

theorem c8_witness : skyW.collides (-1, 0) = false :=
  c8_bounds_safety skyW (-1) 0 (Or.inl (by decide))

/-- C9: for every launch state and wind within [−MAX_WIND, MAX_WIND],
with a fixed tick duration dt (0 < dt and DRAG_COEFF·dt < 1, which
holds for dt = 1/60), repeated integration steps reach a tick whose
resolution is terminal: drag bounds the fall speed toward
GRAVITY/DRAG_COEFF > 0, so y eventually passes H and the out-of-bounds
branch fires if no other outcome fired earlier. -/
theorem c9_flight_terminates (p : Proj) (dt : ℚ) (h1 : 0 < dt)
    (h2 : DRAG_COEFF * dt < 1)
    (_hw1 : -MAX_WIND ≤ p.wind_speed) (_hw2 : p.wind_speed ≤ MAX_WIND)
    (sky : Skyline) (gs : GorillaM × GorillaM) (cp : Nat) :
    ∃ n : Nat, 1 ≤ n ∧
      resolveOutcome sky gs cp (pyInt (projIterate dt p n).pos.1)
        (pyInt (projIterate dt p n).pos.2) ≠ Outcome.cont := by
  obtain ⟨m, hm⟩ := exists_high dt (p.update dt) h1 h2
  refine ⟨m + 1, by omega, ?_⟩
  rw [projIterate_shift dt p m]
  have hge : SCREEN_HEIGHT ≤ pyInt (projIterate dt (p.update dt) m).pos.2 :=
    pyInt_ge_height _ hm
  unfold resolveOutcome
  rw [if_pos (Or.inr (Or.inr hge))]
  simp

theorem c9_witness :
    (0 : ℚ) < 1 / 60 ∧ DRAG_COEFF * (1 / 60) < 1 ∧
    -MAX_WIND ≤ projW.wind_speed ∧ projW.wind_speed ≤ MAX_WIND ∧
    ∃ n : Nat, 1 ≤ n ∧
      resolveOutcome skyW (gorW, gorW2) 0
        (pyInt (projIterate (1 / 60) projW n).pos.1)
        (pyInt (projIterate (1 / 60) projW n).pos.2) ≠ Outcome.cont := by
  have ha : (0 : ℚ) < 1 / 60 := by norm_num
  have hb : DRAG_COEFF * (1 / 60) < 1 := by norm_num [DRAG_COEFF]
  have hc : -MAX_WIND ≤ projW.wind_speed := by norm_num [projW, MAX_WIND]
  have hd : projW.wind_speed ≤ MAX_WIND := by norm_num [projW, MAX_WIND]
  exact ⟨ha, hb, hc, hd,
    c9_flight_terminates projW (1 / 60) ha hb hc hd skyW (gorW, gorW2) 0⟩

/-- C10 counterexample: an existing but unreadable score store makes
`save_score` raise an uncaught `OSError` (only `json.JSONDecodeError`
is caught), so the new entry is not appended — against the claim that
every unreadable store is recovered as an empty array. -/
theorem c10_counterexample :
    saveScoreStore (StoreState.unreadable "x") (fun _ => DecodeResult.jsonError) entryW
      = Except.error () := rfl

/-- C10 (amended): a missing score file or one whose content fails JSON
decoding is treated as an empty array and the new entry is still
appended, the whole array being rewritten as all recovered entries plus
exactly one new entry; but an existing unreadable file raises an
uncaught error and nothing is written. -/
theorem c10_store_recovery (decode : String → DecodeResult) (e : ScoreEntry) :
    saveScoreStore StoreState.missing decode e = Except.ok [e]
    ∧ (∀ raw, decode raw = DecodeResult.jsonError →
        saveScoreStore (StoreState.readable raw) decode e = Except.ok [e])
    ∧ (∀ raw l, decode raw = DecodeResult.array l →
        saveScoreStore (StoreState.readable raw) decode e = Except.ok (l ++ [e]))
    ∧ (∀ raw, saveScoreStore (StoreState.unreadable raw) decode e = Except.error ()) := by
  refine ⟨rfl, ?_, ?_, fun raw => rfl⟩
  · intro raw hr
    unfold saveScoreStore
    dsimp only
    rw [hr]
    rfl
  · intro raw l hr
    unfold saveScoreStore
    dsimp only
    rw [hr]

theorem c10_witness :
    (fun _ : String => DecodeResult.jsonError) "bad" = DecodeResult.jsonError ∧
    saveScoreStore (StoreState.readable "bad") (fun _ => DecodeResult.jsonError) entryW
      = Except.ok [entryW] :=
  ⟨rfl, (c10_store_recovery (fun _ => DecodeResult.jsonError) entryW).2.1 "bad" rfl⟩

end Gorilla
